import Mathlib

/-!
Shallow embedding of the golf-intel service (src/index.ts): typed records for
the upstream JSON fields the handlers access, JavaScript-faithful helpers for
`slice`, `||`, `split`, `includes`, `replace` and indexed `map`, and one Lean
function per entrypoint handler.  Upstream fetches are modelled as
`Except String` values (an `Except.error` is a thrown upstream failure);
`JSON undefined` is `Option.none`; the response-construction timestamp
`new Date().toISOString()` is an explicit `now : String` parameter.
The source pattern `xs?.slice(0, n)... || []` is embedded as an operation on
`xs.getD []`, which agrees because slicing or mapping the empty list yields
the empty list (the `||` default).
-/

namespace GolfIntel

/-- JavaScript `xs.slice(0, stop)` on an array: a negative `stop` counts from
the end (`max (len + stop) 0`), a non-negative one is clamped to the length. -/
def jsSliceTo (xs : List α) (stop : Int) : List α :=
  xs.take (if stop < 0 then max ((xs.length : Int) + stop) 0 else min stop (xs.length : Int)).toNat

/-- JavaScript `a || d` for a possibly-undefined string `a`: the default is
taken when `a` is `undefined` or the empty string (the only falsy strings). -/
def jsOrString (a : Option String) (d : String) : String :=
  match a with
  | none => d
  | some s => if s = "" then d else s

/-- JavaScript `a || b` where both sides are possibly-undefined strings
(used for `c.athlete?.displayName || c.displayName`). -/
def jsOr (a b : Option String) : Option String :=
  match a with
  | none => b
  | some s => if s = "" then b else some s

/-- JavaScript `xs?.[i]` on a possibly-undefined array. -/
def optIdx (xs : Option (List α)) (i : Nat) : Option α :=
  xs.bind fun l => l.get? i

/-- Left-to-right scan behind `jsSplit`: cut at each leftmost,
non-overlapping occurrence of `sep` (JavaScript `split` semantics for a
non-empty separator).  The fuel argument only makes the recursion
structural; `jsSplit` supplies more than enough. -/
def splitSepFuel (sep : List Char) : Nat → List Char → List Char → List (List Char)
  | 0, rest, acc => [acc.reverse ++ rest]
  | _ + 1, [], acc => [acc.reverse]
  | fuel + 1, c :: rest, acc =>
    if sep.isPrefixOf (c :: rest) then
      acc.reverse :: splitSepFuel sep fuel ((c :: rest).drop sep.length) []
    else
      splitSepFuel sep fuel rest (c :: acc)

/-- JavaScript `s.split(sep)` for a non-empty string separator. -/
def jsSplit (s sep : String) : List String :=
  (splitSepFuel sep.data (s.data.length + 1) s.data []).map String.mk

/-- JavaScript `s.toUpperCase()` (ASCII range, which covers the country
codes this service extracts). -/
def jsToUpper (s : String) : String :=
  String.mk (s.data.map Char.toUpper)

/-- JavaScript `s.includes(pat)` for a non-empty pattern. -/
def jsIncludes (s pat : String) : Bool :=
  (jsSplit s pat).length > 1

/-- JavaScript `s.replace(pat, repl)` with a string pattern: only the first
occurrence is replaced. -/
def replaceFirst (s pat repl : String) : String :=
  match jsSplit s pat with
  | [] => s
  | [x] => x
  | x :: rest => x ++ repl ++ String.intercalate pat rest

/-- Helper `mapIdxFrom f k xs` maps `f` over `xs` with indices starting at `k`. -/
def mapIdxFrom (f : Nat → α → β) : Nat → List α → List β
  | _, [] => []
  | k, a :: as => f k a :: mapIdxFrom f (k + 1) as

/-- JavaScript `xs.map((x, i) => f i x)`. -/
def jsMapIdx (f : Nat → α → β) (xs : List α) : List β :=
  mapIdxFrom f 0 xs

/-! ### Upstream data model (fields the handlers access) -/

/-- Shape of `fullStatus.type` of an upstream event. -/
structure FullStatusType where
  description : Option String
deriving Repr, DecidableEq

/-- Shape of `fullStatus` of an upstream event. -/
structure FullStatus where
  type : Option FullStatusType
  displayPeriod : Option String
deriving Repr, DecidableEq

/-- A competitor as it appears in the `/events` feeds (overview,
lpga-leaderboard, full-report). -/
structure EventCompetitor where
  displayName : Option String
  score : Option String
  shortName : Option String
  logo : Option String
deriving Repr, DecidableEq

/-- An event of the `/events` feeds. -/
structure Event where
  id : Option String
  name : Option String
  date : Option String
  fullStatus : Option FullStatus
  competitors : Option (List EventCompetitor)
deriving Repr, DecidableEq

/-- Top-level shape of a `/events` response. -/
structure EventsData where
  events : Option (List Event)
deriving Repr, DecidableEq

/-- Shape of `athlete.flag` of a scoreboard competitor. -/
structure Flag where
  alt : Option String
deriving Repr, DecidableEq

/-- Shape of `athlete` of a scoreboard competitor. -/
structure Athlete where
  displayName : Option String
  flag : Option Flag
deriving Repr, DecidableEq

/-- Shape of `scoreType` of a per-hole linescore. -/
structure ScoreType where
  displayValue : Option String
deriving Repr, DecidableEq

/-- A per-hole linescore (`h.period`, `h.value`, `h.scoreType`). -/
structure HoleLinescore where
  period : Option Int
  value : Option Int
  scoreType : Option ScoreType
deriving Repr, DecidableEq

/-- A per-round linescore of a scoreboard competitor. -/
structure RoundLinescore where
  displayValue : Option String
  linescores : Option (List HoleLinescore)
deriving Repr, DecidableEq

/-- Shape of `status` of a scoreboard competitor. -/
structure SBStatus where
  thru : Option String
deriving Repr, DecidableEq

/-- A competitor of the `/scoreboard` feed (pga-leaderboard,
player-scorecard). -/
structure SBCompetitor where
  id : Option String
  displayName : Option String
  score : Option String
  athlete : Option Athlete
  status : Option SBStatus
  linescores : Option (List RoundLinescore)
deriving Repr, DecidableEq

/-- A competition inside a scoreboard event. -/
structure Competition where
  competitors : Option (List SBCompetitor)
deriving Repr, DecidableEq

/-- An event of the `/scoreboard` feed. -/
structure SBEvent where
  competitions : Option (List Competition)
deriving Repr, DecidableEq

/-- A calendar entry of `leagues[0].calendar` (pga-schedule, full-report). -/
structure CalendarEntry where
  id : Option String
  label : Option String
  startDate : Option String
  endDate : Option String
deriving Repr, DecidableEq

/-- Shape of `season` of a league. -/
structure Season where
  displayName : Option String
deriving Repr, DecidableEq

/-- A league of the `/scoreboard` feed. -/
structure League where
  season : Option Season
  calendar : Option (List CalendarEntry)
deriving Repr, DecidableEq

/-- Top-level shape of a `/scoreboard` response. -/
structure ScoreboardData where
  events : Option (List SBEvent)
  leagues : Option (List League)
deriving Repr, DecidableEq

/-! ### Country extraction heuristics -/

/-- Overview handler country heuristic: `c.shortName?.split('.')[0] || 'N/A'`. -/
def overviewCountry (shortName : Option String) : String :=
  jsOrString (shortName.map fun s => (jsSplit s ".").headD "") "N/A"

/-- Secondary-tour (lpga-leaderboard) country heuristic:
`c.logo?.includes('/countries/') ?
   c.logo.split('/countries/500/')[1]?.replace('.png', '').toUpperCase() : 'N/A'`.
`none` models the whole expression coming out `undefined`. -/
def lpgaCountry (logo : Option String) : Option String :=
  match logo with
  | none => some "N/A"
  | some l =>
    if jsIncludes l "/countries/" then
      ((jsSplit l "/countries/500/").get? 1).map fun s =>
        jsToUpper (replaceFirst s ".png" "")
    else some "N/A"

/-! ### overview handler -/

/-- One leaderboard entry of the overview output. -/
structure OverviewEntry where
  position : Nat
  name : Option String
  score : Option String
  country : String
deriving Repr, DecidableEq

/-- The entry the overview handler builds from competitor `c` at index `i`. -/
def overviewEntry (i : Nat) (c : EventCompetitor) : OverviewEntry :=
  { position := i + 1
    name := c.displayName
    score := c.score
    country := overviewCountry c.shortName }

/-- Output of the `overview` entrypoint: either the no-tournament message or
the leaderboard report. -/
inductive OverviewOutput where
  | noTournament (message : String) (fetchedAt : String)
  | report (tournament : Option String) (status : String) (round : String)
      (leaderboard : List OverviewEntry) (fetchedAt : String) (dataSource : String)
deriving Repr, DecidableEq

/-- The `overview` handler (src/index.ts lines 38-60). -/
def overviewHandler (eventsResp : Except String EventsData) (now : String) :
    Except String OverviewOutput := do
  let data ← eventsResp
  match (data.events.getD []).head? with
  | none => pure (.noTournament "No active tournament" now)
  | some event =>
    let competitors := jsSliceTo (event.competitors.getD []) 10
    pure (.report event.name
      (jsOrString ((event.fullStatus.bind (·.type)).bind (·.description)) "Unknown")
      (jsOrString (event.fullStatus.bind (·.displayPeriod)) "N/A")
      (jsMapIdx overviewEntry competitors)
      now
      "ESPN Golf API (live)")

/-! ### pga-leaderboard handler -/

/-- The tournament block shared by the pga and lpga leaderboard outputs. -/
structure TournamentInfo where
  id : Option String
  name : Option String
  status : Option String
  round : Option String
  date : Option String
deriving Repr, DecidableEq

/-- One leaderboard entry of the pga-leaderboard output. -/
structure PgaLbEntry where
  position : Nat
  playerId : Option String
  name : Option String
  score : Option String
  country : String
  thru : String
deriving Repr, DecidableEq

/-- The entry the pga-leaderboard handler builds from scoreboard competitor
`c` at index `i`. -/
def pgaLbEntry (i : Nat) (c : SBCompetitor) : PgaLbEntry :=
  { position := i + 1
    playerId := c.id
    name := jsOr (c.athlete.bind (·.displayName)) c.displayName
    score := c.score
    country := jsOrString ((c.athlete.bind (·.flag)).bind (·.alt)) "Unknown"
    thru := jsOrString (c.status.bind (·.thru)) "F" }

/-- Output of the `pga-leaderboard` entrypoint. -/
inductive PgaLbOutput where
  | noTournament (error : String)
  | report (tournament : TournamentInfo) (leaderboard : List PgaLbEntry)
      (totalPlayers : Nat) (fetchedAt : String)
deriving Repr, DecidableEq

/-- Extraction `scoreboard.events?.[0]?.competitions?.[0]?.competitors || []`. -/
def sbCompetitors (sb : ScoreboardData) : List SBCompetitor :=
  (((optIdx ((optIdx sb.events 0).bind (·.competitions)) 0).bind (·.competitors)).getD [])

/-- The tournament block both leaderboard handlers build from `event`. -/
def tournamentInfo (event : Event) : TournamentInfo :=
  { id := event.id
    name := event.name
    status := (event.fullStatus.bind (·.type)).bind (·.description)
    round := event.fullStatus.bind (·.displayPeriod)
    date := event.date }

/-- The `pga-leaderboard` handler (src/index.ts lines 71-103).  The second
upstream call (the scoreboard for `event.id`) is bound after the event
check, exactly as in the source, so its failure only matters when an event
exists. -/
def pgaLeaderboardHandler (eventsResp : Except String EventsData)
    (scoreboardResp : Except String ScoreboardData)
    (limit : Int) (now : String) : Except String PgaLbOutput := do
  let eventsData ← eventsResp
  match (eventsData.events.getD []).head? with
  | none => pure (.noTournament "No active PGA tournament")
  | some event =>
    let scoreboard ← scoreboardResp
    let competitors := sbCompetitors scoreboard
    pure (.report (tournamentInfo event)
      (jsMapIdx pgaLbEntry (jsSliceTo competitors limit))
      competitors.length
      now)

/-! ### player-scorecard handler -/

/-- One id/name discovery hint of the player-not-found payload. -/
structure HintEntry where
  id : Option String
  name : Option String
deriving Repr, DecidableEq

/-- The player block of the scorecard output. -/
structure PlayerInfo where
  id : Option String
  name : Option String
  country : String
  totalScore : Option String
deriving Repr, DecidableEq

/-- One per-hole entry of a scorecard round. -/
structure HoleOut where
  hole : Option Int
  strokes : Option Int
  toPar : Option String
deriving Repr, DecidableEq

/-- One per-round entry of the scorecard output. -/
structure RoundOut where
  round : Nat
  score : Option String
  holes : List HoleOut
deriving Repr, DecidableEq

/-- The round entry the scorecard handler builds from linescore `r` at
index `i`. -/
def roundOut (i : Nat) (r : RoundLinescore) : RoundOut :=
  { round := i + 1
    score := r.displayValue
    holes :=
      match r.linescores with
      | some hs => hs.map fun h =>
          { hole := h.period
            strokes := h.value
            toPar := (h.scoreType.bind (·.displayValue)) }
      | none => [] }

/-- Output of the `player-scorecard` entrypoint. -/
inductive ScorecardOutput where
  | noTournament (error : String)
  | playerNotFound (error : String) (availablePlayers : List HintEntry)
  | scorecard (tournament : Option String) (player : PlayerInfo)
      (rounds : List RoundOut) (fetchedAt : String)
deriving Repr, DecidableEq

/-- The lookup-and-shape step of the player-scorecard handler
(src/index.ts lines 123-150): linear `find` by exact id equality, the
not-found payload with up to 10 hints, or the shaped scorecard. -/
def scorecardFor (competitors : List SBCompetitor) (playerId : String)
    (tournamentName : Option String) (now : String) : ScorecardOutput :=
  match competitors.find? (fun c => c.id == some playerId) with
  | none =>
    .playerNotFound "Player not found in current tournament"
      ((jsSliceTo competitors 10).map fun c =>
        { id := c.id, name := c.athlete.bind (·.displayName) })
  | some player =>
    .scorecard tournamentName
      { id := player.id
        name := jsOr (player.athlete.bind (·.displayName)) player.displayName
        country := jsOrString ((player.athlete.bind (·.flag)).bind (·.alt)) "Unknown"
        totalScore := player.score }
      (jsMapIdx roundOut (player.linescores.getD []))
      now

/-- The `player-scorecard` handler (src/index.ts lines 114-151); the
scoreboard fetch is bound after the event check as in the source. -/
def playerScorecardHandler (eventsResp : Except String EventsData)
    (scoreboardResp : Except String ScoreboardData)
    (playerId : String) (now : String) : Except String ScorecardOutput := do
  let eventsData ← eventsResp
  match (eventsData.events.getD []).head? with
  | none => pure (.noTournament "No active tournament")
  | some event =>
    let scoreboard ← scoreboardResp
    pure (scorecardFor (sbCompetitors scoreboard) playerId event.name now)

/-! ### pga-schedule handler -/

/-- One event of the schedule output. -/
structure ScheduleEvent where
  id : Option String
  name : Option String
  startDate : Option String
  endDate : Option String
deriving Repr, DecidableEq

/-- The schedule entry built from calendar entry `e`. -/
def scheduleEventOf (e : CalendarEntry) : ScheduleEvent :=
  { id := e.id, name := e.label, startDate := e.startDate, endDate := e.endDate }

/-- Output of the `pga-schedule` entrypoint. -/
structure ScheduleOutput where
  season : Option String
  events : List ScheduleEvent
  fetchedAt : String
deriving Repr, DecidableEq

/-- Extraction `data.leagues?.[0]?.calendar || []`. -/
def sbCalendar (sb : ScoreboardData) : List CalendarEntry :=
  ((optIdx sb.leagues 0).bind (·.calendar)).getD []

/-- The `pga-schedule` handler (src/index.ts lines 162-180). -/
def pgaScheduleHandler (sbResp : Except String ScoreboardData)
    (limit : Int) (now : String) : Except String ScheduleOutput := do
  let data ← sbResp
  let calendar := sbCalendar data
  pure
    { season := ((optIdx data.leagues 0).bind (·.season)).bind (·.displayName)
      events := (jsSliceTo calendar limit).map scheduleEventOf
      fetchedAt := now }

/-! ### lpga-leaderboard handler -/

/-- One leaderboard entry of the lpga-leaderboard output; `country` is
`none` when the logo-URL extraction comes out `undefined`. -/
structure LpgaEntry where
  position : Nat
  name : Option String
  score : Option String
  country : Option String
deriving Repr, DecidableEq

/-- The entry the lpga-leaderboard handler builds from competitor `c` at
index `i`. -/
def lpgaEntry (i : Nat) (c : EventCompetitor) : LpgaEntry :=
  { position := i + 1
    name := c.displayName
    score := c.score
    country := lpgaCountry c.logo }

/-- Output of the `lpga-leaderboard` entrypoint. -/
inductive LpgaOutput where
  | noTournament (error : String)
  | report (tournament : TournamentInfo) (leaderboard : List LpgaEntry)
      (fetchedAt : String)
deriving Repr, DecidableEq

/-- The `lpga-leaderboard` handler (src/index.ts lines 191-217). -/
def lpgaLeaderboardHandler (eventsResp : Except String EventsData)
    (limit : Int) (now : String) : Except String LpgaOutput := do
  let data ← eventsResp
  match (data.events.getD []).head? with
  | none => pure (.noTournament "No active LPGA tournament")
  | some event =>
    let competitors := jsSliceTo (event.competitors.getD []) limit
    pure (.report (tournamentInfo event)
      (jsMapIdx lpgaEntry competitors)
      now)

/-! ### full-report handler -/

/-- One top-player entry of a full-report tour section. -/
structure TopPlayer where
  position : Nat
  name : Option String
  score : Option String
deriving Repr, DecidableEq

/-- The top-player entry built from competitor `c` at index `i`. -/
def topPlayerEntry (i : Nat) (c : EventCompetitor) : TopPlayer :=
  { position := i + 1, name := c.displayName, score := c.score }

/-- One tour section of the full-report output. -/
structure TourSection where
  tournament : Option String
  status : Option String
  round : Option String
  topPlayers : List TopPlayer
deriving Repr, DecidableEq

/-- The section the full-report handler builds for an active event. -/
def tourSectionOf (event : Event) : TourSection :=
  { tournament := event.name
    status := (event.fullStatus.bind (·.type)).bind (·.description)
    round := event.fullStatus.bind (·.displayPeriod)
    topPlayers := jsMapIdx topPlayerEntry (jsSliceTo (event.competitors.getD []) 10) }

/-- One upcoming-schedule entry of the full-report output. -/
structure UpcomingEvent where
  name : Option String
  startDate : Option String
deriving Repr, DecidableEq

/-- Output of the `full-report` entrypoint; a tour field is `none` when that
tour has no active event. -/
structure FullReportOutput where
  pga : Option TourSection
  lpga : Option TourSection
  upcomingPGA : List UpcomingEvent
  generatedAt : String
deriving Repr, DecidableEq

/-- Extraction `pgaScoreboard.leagues?.[0]?.calendar?.slice(0, 5) || []`. -/
def fullReportSchedule (sb : ScoreboardData) : List CalendarEntry :=
  (((optIdx sb.leagues 0).bind (·.calendar)).map fun cal => jsSliceTo cal 5).getD []

/-- The `full-report` handler (src/index.ts lines 226-266).  `Promise.all`
rejects as soon as any of the three fetches fails, which the sequential
`Except` binds reproduce up to which error is reported. -/
def fullReportHandler (pgaResp lpgaResp : Except String EventsData)
    (sbResp : Except String ScoreboardData) (now : String) :
    Except String FullReportOutput := do
  let pgaEvents ← pgaResp
  let lpgaEvents ← lpgaResp
  let pgaScoreboard ← sbResp
  let pgaEvent := (pgaEvents.events.getD []).head?
  let lpgaEvent := (lpgaEvents.events.getD []).head?
  let schedule := fullReportSchedule pgaScoreboard
  pure
    { pga := pgaEvent.map tourSectionOf
      lpga := lpgaEvent.map tourSectionOf
      upcomingPGA := schedule.map fun e => { name := e.label, startDate := e.startDate }
      generatedAt := now }

/-! ### analytics handlers

The payment tracker and the `getSummary` / `getAllTransactions` /
`exportToCSV` functions are external collaborators (`@lucid-agents/analytics`);
they are passed in as parameters. -/

/-- Opaque stand-in for the external payment tracker collaborator. -/
structure PaymentTracker where
  mk ::
deriving Repr, DecidableEq

/-- Opaque stand-in for an external payment transaction record. -/
structure Transaction where
  mk ::
deriving Repr, DecidableEq

/-- The fields of the external summary that the handler rewrites; the
remaining spread-through fields are irrelevant to the handler. -/
structure Summary where
  outgoingTotal : Int
  incomingTotal : Int
  netTotal : Int
deriving Repr, DecidableEq

/-- Output of the `analytics` entrypoint. -/
inductive AnalyticsOutput where
  | unavailable (error : String) (payments : List Transaction)
  | summary (outgoingTotal incomingTotal netTotal : String)
deriving Repr, DecidableEq

/-- The `analytics` handler (src/index.ts lines 277-291). -/
def analyticsHandler (tracker : Option PaymentTracker)
    (getSummary : PaymentTracker → Option Int → Summary)
    (windowMs : Option Int) : Except String AnalyticsOutput := do
  match tracker with
  | none => pure (.unavailable "Analytics not available" [])
  | some t =>
    let s := getSummary t windowMs
    pure (.summary (toString s.outgoingTotal) (toString s.incomingTotal)
      (toString s.netTotal))

/-- Output of the `analytics-transactions` entrypoint. -/
structure TransactionsOutput where
  transactions : List Transaction
deriving Repr, DecidableEq

/-- The `analytics-transactions` handler (src/index.ts lines 302-309). -/
def analyticsTransactionsHandler (tracker : Option PaymentTracker)
    (getAllTransactions : PaymentTracker → Option Int → List Transaction)
    (windowMs : Option Int) (limit : Int) : Except String TransactionsOutput := do
  match tracker with
  | none => pure { transactions := [] }
  | some t =>
    let txs := getAllTransactions t windowMs
    pure { transactions := jsSliceTo txs limit }

/-- Output of the `analytics-csv` entrypoint. -/
structure CsvOutput where
  csv : String
deriving Repr, DecidableEq

/-- The `analytics-csv` handler (src/index.ts lines 317-324). -/
def analyticsCsvHandler (tracker : Option PaymentTracker)
    (exportToCSV : PaymentTracker → Option Int → String)
    (windowMs : Option Int) : Except String CsvOutput := do
  match tracker with
  | none => pure { csv := "" }
  | some t => pure { csv := exportToCSV t windowMs }

/-! ### Timestamp accessors and error-branch discriminators

`fetchedAtField` reads the fetch/generation timestamp of an output when the
branch carries one (`fetchedAt` or `generatedAt` in the source), and is `none`
exactly on the branches whose object literal has no timestamp key. -/

/-- Timestamp of an overview output (both branches carry `fetchedAt`). -/
def OverviewOutput.fetchedAtField : OverviewOutput → Option String
  | .noTournament _ t => some t
  | .report _ _ _ _ t _ => some t

/-- Timestamp of a pga-leaderboard output; the error payload has none. -/
def PgaLbOutput.fetchedAtField : PgaLbOutput → Option String
  | .noTournament _ => none
  | .report _ _ _ t => some t

/-- Timestamp of a player-scorecard output; the error payloads have none. -/
def ScorecardOutput.fetchedAtField : ScorecardOutput → Option String
  | .noTournament _ => none
  | .playerNotFound _ _ => none
  | .scorecard _ _ _ t => some t

/-- Timestamp of a pga-schedule output. -/
def ScheduleOutput.fetchedAtField (o : ScheduleOutput) : Option String :=
  some o.fetchedAt

/-- Timestamp of an lpga-leaderboard output; the error payload has none. -/
def LpgaOutput.fetchedAtField : LpgaOutput → Option String
  | .noTournament _ => none
  | .report _ _ t => some t

/-- Timestamp of a full-report output (`generatedAt`). -/
def FullReportOutput.fetchedAtField (o : FullReportOutput) : Option String :=
  some o.generatedAt

/-- Timestamp of an analytics summary output: neither branch's object
literal contains a timestamp key. -/
def AnalyticsOutput.fetchedAtField : AnalyticsOutput → Option String
  | .unavailable _ _ => none
  | .summary _ _ _ => none

/-- Timestamp of an analytics-transactions output: the object literal
`{ transactions }` has no timestamp key. -/
def TransactionsOutput.fetchedAtField (_ : TransactionsOutput) : Option String :=
  none

/-- Timestamp of an analytics-csv output: the object literal `{ csv }` has
no timestamp key. -/
def CsvOutput.fetchedAtField (_ : CsvOutput) : Option String :=
  none

/-- Whether a pga-leaderboard output is the error-shaped payload. -/
def PgaLbOutput.isErrorShaped : PgaLbOutput → Bool
  | .noTournament _ => true
  | .report _ _ _ _ => false

/-- Whether a player-scorecard output is an error-shaped payload. -/
def ScorecardOutput.isErrorShaped : ScorecardOutput → Bool
  | .noTournament _ => true
  | .playerNotFound _ _ => true
  | .scorecard _ _ _ _ => false

/-- Whether an lpga-leaderboard output is the error-shaped payload. -/
def LpgaOutput.isErrorShaped : LpgaOutput → Bool
  | .noTournament _ => true
  | .report _ _ _ => false

/-! ### Lemmas about the JavaScript helpers -/

/-- Length of a non-negative-bound slice: the JS `min` clamp. -/
theorem jsSliceTo_length (xs : List α) (n : Int) (h : 0 ≤ n) :
    (jsSliceTo xs n).length = min n.toNat xs.length := by
  unfold jsSliceTo
  rw [if_neg (by omega)]
  simp only [List.length_take]
  omega

/-- A slice never exceeds the input length. -/
theorem jsSliceTo_length_le (xs : List α) (n : Int) :
    (jsSliceTo xs n).length ≤ xs.length := by
  unfold jsSliceTo
  simp only [List.length_take]
  omega

/-- A negative slice bound drops elements from the end: when `|n|` is at
most the length, `slice(0, n)` is the first `len - |n|` elements. -/
theorem jsSliceTo_neg (xs : List α) (n : Int) (h : n < 0) :
    jsSliceTo xs n = xs.take (xs.length - n.natAbs) := by
  unfold jsSliceTo
  rw [if_pos h]
  congr 1
  omega

/-- Lemma: `mapIdxFrom` preserves length. -/
theorem mapIdxFrom_length (f : Nat → α → β) (k : Nat) (xs : List α) :
    (mapIdxFrom f k xs).length = xs.length := by
  induction xs generalizing k with
  | nil => rfl
  | cons a as ih => simp [mapIdxFrom, ih]

/-- Lemma: `jsMapIdx` preserves length. -/
theorem jsMapIdx_length (f : Nat → α → β) (xs : List α) :
    (jsMapIdx f xs).length = xs.length :=
  mapIdxFrom_length f 0 xs

/-- Projecting an `i + 1` field out of an indexed map yields consecutive
numbers from `k + 1`. -/
theorem mapIdxFrom_map_pos (f : Nat → α → β) (g : β → Nat)
    (hg : ∀ i a, g (f i a) = i + 1) (k : Nat) (xs : List α) :
    (mapIdxFrom f k xs).map g = List.range' (k + 1) xs.length := by
  induction xs generalizing k with
  | nil => rfl
  | cons a as ih =>
    simp only [mapIdxFrom, List.map_cons, List.length_cons, List.range'_succ, hg]
    exact congrArg _ (ih (k + 1))

/-- Positions of a `jsMapIdx` leaderboard are exactly `1..len`. -/
theorem jsMapIdx_map_pos (f : Nat → α → β) (g : β → Nat)
    (hg : ∀ i a, g (f i a) = i + 1) (xs : List α) :
    (jsMapIdx f xs).map g = List.range' 1 xs.length :=
  mapIdxFrom_map_pos f g hg 0 xs

/-- Projecting an index-independent field out of an indexed map is a plain
map over the input list. -/
theorem mapIdxFrom_map_proj (f : Nat → α → β) (g : β → γ) (h : α → γ)
    (hg : ∀ i a, g (f i a) = h a) (k : Nat) (xs : List α) :
    (mapIdxFrom f k xs).map g = xs.map h := by
  induction xs generalizing k with
  | nil => rfl
  | cons a as ih => simp only [mapIdxFrom, List.map_cons, hg, ih]

/-- Index-independent fields of a `jsMapIdx` leaderboard mirror the input
list in order. -/
theorem jsMapIdx_map_proj (f : Nat → α → β) (g : β → γ) (h : α → γ)
    (hg : ∀ i a, g (f i a) = h a) (xs : List α) :
    (jsMapIdx f xs).map g = xs.map h :=
  mapIdxFrom_map_proj f g h hg 0 xs

/-! ### Sample records for concrete witnesses -/

/-- Blank upstream event record for concrete witnesses. -/
def blankEvent : Event :=
  { id := none, name := none, date := none, fullStatus := none, competitors := none }

/-- Blank scoreboard competitor record for concrete witnesses. -/
def blankSBCompetitor : SBCompetitor :=
  { id := none, displayName := none, score := none, athlete := none,
    status := none, linescores := none }

/-- A scoreboard response holding the given competitor list. -/
def sampleScoreboard (cs : List SBCompetitor) : ScoreboardData :=
  { events := some [{ competitions := some [{ competitors := some cs }] }],
    leagues := none }

/-- Two line-score rounds for a sample player. -/
def sampleRounds : List RoundLinescore :=
  [{ displayValue := some "70", linescores := none },
   { displayValue := some "68", linescores := none }]

/-- A sample scoreboard competitor with a known id and two rounds. -/
def samplePlayer : SBCompetitor :=
  { id := some "569", displayName := some "Justin Rose", score := some "-6",
    athlete := none, status := none, linescores := some sampleRounds }

/-! ### Claims -/

/-- C1 counterexample: the pga-schedule handler never reads the upstream
event list.  With an empty event list but a populated calendar it returns an
ordinary populated schedule — a successful payload whose output shape has no
message or error field at all and whose `events` list is non-empty — so it
contains no "no tournament/player" indicator, contrary to the claim. -/
theorem C1_counterexample :
    pgaScheduleHandler
        (Except.ok ⟨some [],
          some [{ season := none
                  calendar := some [{ id := some "401703504"
                                      label := some "The Open"
                                      startDate := some "2026-07-16"
                                      endDate := some "2026-07-19" }] }]⟩)
        10 "T"
      = Except.ok
        { season := none
          events := [{ id := some "401703504", name := some "The Open",
                       startDate := some "2026-07-16", endDate := some "2026-07-19" }]
          fetchedAt := "T" }
  ∧ [({ id := some "401703504", name := some "The Open",
        startDate := some "2026-07-16", endDate := some "2026-07-19" } : ScheduleEvent)]
      ≠ ([] : List ScheduleEvent) :=
  ⟨rfl, by decide⟩

/-- C1 (amended): for overview, pga-leaderboard, player-scorecard,
lpga-leaderboard and full-report, an empty upstream event list gives a
successful (`Except.ok`, never thrown) response with the code's explicit
no-tournament indicator: a message for `overview`, an `error` field for
`pga-leaderboard` / `player-scorecard` / `lpga-leaderboard`, null tour
sections for `full-report`.  The pga-schedule handler does not consult the
event list: on any response whose event list is empty it still succeeds,
returning its ordinary calendar-derived schedule payload with no
no-tournament indicator. -/
theorem C1_amended_empty_events_soft_success :
    (∀ now, overviewHandler (Except.ok ⟨some []⟩) now
      = Except.ok (.noTournament "No active tournament" now))
  ∧ (∀ sbr lim now, pgaLeaderboardHandler (Except.ok ⟨some []⟩) sbr lim now
      = Except.ok (.noTournament "No active PGA tournament"))
  ∧ (∀ sbr pid now, playerScorecardHandler (Except.ok ⟨some []⟩) sbr pid now
      = Except.ok (.noTournament "No active tournament"))
  ∧ (∀ lim now, lpgaLeaderboardHandler (Except.ok ⟨some []⟩) lim now
      = Except.ok (.noTournament "No active LPGA tournament"))
  ∧ (∀ leagues lim now, pgaScheduleHandler (Except.ok ⟨some [], leagues⟩) lim now
      = Except.ok
        { season := ((optIdx leagues 0).bind (·.season)).bind (·.displayName)
          events := (jsSliceTo (sbCalendar ⟨some [], leagues⟩) lim).map scheduleEventOf
          fetchedAt := now })
  ∧ (∀ sb now, ∃ up, fullReportHandler (Except.ok ⟨some []⟩) (Except.ok ⟨some []⟩)
        (Except.ok sb) now
      = Except.ok { pga := none, lpga := none, upcomingPGA := up, generatedAt := now }) :=
  ⟨fun _ => rfl, fun _ _ _ => rfl, fun _ _ _ => rfl,
   fun _ _ => rfl, fun _ _ _ => rfl, fun _ _ => ⟨_, rfl⟩⟩

/-- C3 counterexample: the logo URL "x/countries/ABC.png" does not contain
the claimed pattern (it lacks `/countries/500/` entirely), yet the
lpga-leaderboard country heuristic yields an absent field (`none`), not
"N/A": the code's ternary only tests for the substring `/countries/`. -/
theorem C3_counterexample :
    jsIncludes "x/countries/ABC.png" "/countries/500/ENG.png" = false
  ∧ jsIncludes "x/countries/ABC.png" "/countries/500/" = false
  ∧ lpgaCountry (some "x/countries/ABC.png") = none
  ∧ lpgaCountry (some "x/countries/ABC.png") ≠ some "N/A" := by decide

/-- C3 (amended): the overview short-name heuristic maps "USA.Smith" to
"USA" and an absent short name to "N/A"; the lpga logo heuristic maps the
upstream-shaped URL ".../countries/500/ENG.png" to "ENG", maps every URL
lacking the substring `/countries/` to "N/A", and maps a URL containing
`/countries/` but not `/countries/500/` to an absent country field. -/
theorem C3_amended_country_heuristics :
    overviewCountry (some "USA.Smith") = "USA"
  ∧ overviewCountry none = "N/A"
  ∧ lpgaCountry (some "https://a.espncdn.com/i/teamlogos/countries/500/ENG.png")
      = some "ENG"
  ∧ (∀ url, jsIncludes url "/countries/" = false → lpgaCountry (some url) = some "N/A")
  ∧ lpgaCountry (some "x/countries/ABC.png") = none := by
  refine ⟨by decide, by decide, by decide, ?_, by decide⟩
  intro url h
  simp [lpgaCountry, h]

/-- Witness for C3 (amended): the hypothesis of the universally quantified
part holds at the concrete URL "foo.png". -/
theorem C3_amended_witness :
    jsIncludes "foo.png" "/countries/" = false
  ∧ lpgaCountry (some "foo.png") = some "N/A" :=
  ⟨by decide, C3_amended_country_heuristics.2.2.2.1 "foo.png" (by decide)⟩

/-- C4: with a non-negative limit `n`, the pga-leaderboard returns exactly
`min n m` entries against an `m`-competitor scoreboard — 5 of 20 for
limit 5, all 20 with no synthetic padding for limit 100. -/
theorem C4_pga_leaderboard_limit (ev : Event) (rest : List Event)
    (sb : ScoreboardData) (n : Int) (now : String) (h : 0 ≤ n) :
    ∃ lb, pgaLeaderboardHandler (Except.ok ⟨some (ev :: rest)⟩) (Except.ok sb) n now
        = Except.ok (.report (tournamentInfo ev) lb (sbCompetitors sb).length now)
      ∧ lb.length = min n.toNat (sbCompetitors sb).length := by
  refine ⟨_, rfl, ?_⟩
  rw [jsMapIdx_length, jsSliceTo_length _ _ h]

/-- Witness for C4 at the claim's own numbers: limits 5 and 100 against a
20-competitor scoreboard give 5 and 20 entries respectively. -/
theorem C4_pga_leaderboard_limit_witness :
    ((0:Int) ≤ 5
      ∧ ∃ lb, pgaLeaderboardHandler (Except.ok ⟨some [blankEvent]⟩)
            (Except.ok (sampleScoreboard (List.replicate 20 blankSBCompetitor))) 5 "T"
          = Except.ok (.report (tournamentInfo blankEvent) lb
              (sbCompetitors (sampleScoreboard (List.replicate 20 blankSBCompetitor))).length "T")
        ∧ lb.length = min (Int.toNat 5)
            (sbCompetitors (sampleScoreboard (List.replicate 20 blankSBCompetitor))).length)
  ∧ min (Int.toNat 5)
      (sbCompetitors (sampleScoreboard (List.replicate 20 blankSBCompetitor))).length = 5
  ∧ ((0:Int) ≤ 100
      ∧ ∃ lb, pgaLeaderboardHandler (Except.ok ⟨some [blankEvent]⟩)
            (Except.ok (sampleScoreboard (List.replicate 20 blankSBCompetitor))) 100 "T"
          = Except.ok (.report (tournamentInfo blankEvent) lb
              (sbCompetitors (sampleScoreboard (List.replicate 20 blankSBCompetitor))).length "T")
        ∧ lb.length = min (Int.toNat 100)
            (sbCompetitors (sampleScoreboard (List.replicate 20 blankSBCompetitor))).length)
  ∧ min (Int.toNat 100)
      (sbCompetitors (sampleScoreboard (List.replicate 20 blankSBCompetitor))).length = 20 :=
  ⟨⟨by decide, C4_pga_leaderboard_limit blankEvent [] _ 5 "T" (by decide)⟩, by decide,
   ⟨by decide, C4_pga_leaderboard_limit blankEvent [] _ 100 "T" (by decide)⟩, by decide⟩

/-- C5: with an active event, if some competitor's id equals the requested
playerId by exact string equality (first such match, as `find` returns),
the scorecard's `rounds` list has the length of that player's upstream
line-score list; if no competitor matches, the handler returns a successful
error-field payload with at most 10 id/name hints and does not throw. -/
theorem C5_player_scorecard (ev : Event) (rest : List Event) (sb : ScoreboardData)
    (pid : String) (now : String) :
    (∀ p, (sbCompetitors sb).find? (fun c => c.id == some pid) = some p →
      ∃ pi, playerScorecardHandler (Except.ok ⟨some (ev :: rest)⟩) (Except.ok sb) pid now
          = Except.ok (.scorecard ev.name pi (jsMapIdx roundOut (p.linescores.getD [])) now)
        ∧ (jsMapIdx roundOut (p.linescores.getD [])).length = (p.linescores.getD []).length)
  ∧ ((sbCompetitors sb).find? (fun c => c.id == some pid) = none →
      ∃ hints, playerScorecardHandler (Except.ok ⟨some (ev :: rest)⟩) (Except.ok sb) pid now
          = Except.ok (.playerNotFound "Player not found in current tournament" hints)
        ∧ hints.length ≤ 10) := by
  constructor
  · intro p hp
    refine ⟨{ id := p.id, name := jsOr (p.athlete.bind (·.displayName)) p.displayName,
              country := jsOrString ((p.athlete.bind (·.flag)).bind (·.alt)) "Unknown",
              totalScore := p.score }, ?_, jsMapIdx_length _ _⟩
    show Except.ok (scorecardFor (sbCompetitors sb) pid ev.name now) = _
    unfold scorecardFor
    rw [hp]
  · intro hp
    refine ⟨(jsSliceTo (sbCompetitors sb) 10).map fun c =>
        { id := c.id, name := c.athlete.bind (·.displayName) }, ?_, ?_⟩
    · show Except.ok (scorecardFor (sbCompetitors sb) pid ev.name now) = _
      unfold scorecardFor
      rw [hp]
    · rw [List.length_map]
      calc (jsSliceTo (sbCompetitors sb) 10).length
          = min (Int.toNat 10) (sbCompetitors sb).length :=
            jsSliceTo_length _ 10 (by omega)
        _ ≤ 10 := Nat.min_le_left _ _

/-- Witness for C5: both branches at concrete inputs — the known id "569"
(a two-round player) and the unknown id "000". -/
theorem C5_player_scorecard_witness :
    ((sbCompetitors (sampleScoreboard [samplePlayer])).find?
        (fun c => c.id == some "569") = some samplePlayer)
  ∧ (∃ pi, playerScorecardHandler (Except.ok ⟨some [blankEvent]⟩)
        (Except.ok (sampleScoreboard [samplePlayer])) "569" "T"
      = Except.ok (.scorecard blankEvent.name pi
          (jsMapIdx roundOut (samplePlayer.linescores.getD [])) "T")
    ∧ (jsMapIdx roundOut (samplePlayer.linescores.getD [])).length
        = (samplePlayer.linescores.getD []).length)
  ∧ ((sbCompetitors (sampleScoreboard [samplePlayer])).find?
        (fun c => c.id == some "000") = none)
  ∧ (∃ hints, playerScorecardHandler (Except.ok ⟨some [blankEvent]⟩)
        (Except.ok (sampleScoreboard [samplePlayer])) "000" "T"
      = Except.ok (.playerNotFound "Player not found in current tournament" hints)
    ∧ hints.length ≤ 10) :=
  ⟨by decide,
   (C5_player_scorecard blankEvent [] _ "569" "T").1 samplePlayer (by decide),
   by decide,
   (C5_player_scorecard blankEvent [] _ "000" "T").2 (by decide)⟩

/-- C6: if any one of full-report's three upstream calls fails, the whole
handler fails with no partial output; and with an empty LPGA event list but
a non-empty PGA event list, the output's `lpga` field is null while `pga`
is populated. -/
theorem C6_full_report_all_or_nothing :
    (∀ (a b : Except String EventsData) (c : Except String ScoreboardData) now,
      ((∃ e, a = Except.error e) ∨ (∃ e, b = Except.error e)
        ∨ (∃ e, c = Except.error e)) →
      ∃ e, fullReportHandler a b c now = Except.error e)
  ∧ (∀ ev rest sb now, ∃ up,
      fullReportHandler (Except.ok ⟨some (ev :: rest)⟩) (Except.ok ⟨some []⟩)
          (Except.ok sb) now
        = Except.ok { pga := some (tourSectionOf ev), lpga := none,
                      upcomingPGA := up, generatedAt := now }) := by
  constructor
  · rintro a b c now (⟨e, rfl⟩ | ⟨e, rfl⟩ | ⟨e, rfl⟩)
    · exact ⟨e, rfl⟩
    · cases a with
      | error ea => exact ⟨ea, rfl⟩
      | ok da => exact ⟨e, rfl⟩
    · cases a with
      | error ea => exact ⟨ea, rfl⟩
      | ok da =>
        cases b with
        | error eb => exact ⟨eb, rfl⟩
        | ok db => exact ⟨e, rfl⟩
  · intro ev rest sb now
    exact ⟨_, rfl⟩

/-- Witness for C6: a failing PGA events fetch makes the whole full-report
call fail. -/
theorem C6_full_report_all_or_nothing_witness :
    ((∃ e, (Except.error "API error: 500" : Except String EventsData)
        = Except.error e)
      ∨ (∃ e, (Except.ok (⟨some []⟩ : EventsData) : Except String EventsData)
        = Except.error e)
      ∨ (∃ e, (Except.ok (⟨none, none⟩ : ScoreboardData) : Except String ScoreboardData)
        = Except.error e))
  ∧ (∃ e, fullReportHandler (Except.error "API error: 500") (Except.ok ⟨some []⟩)
        (Except.ok ⟨none, none⟩) "T" = Except.error e) :=
  ⟨Or.inl ⟨"API error: 500", rfl⟩,
   C6_full_report_all_or_nothing.1 _ _ _ "T" (Or.inl ⟨"API error: 500", rfl⟩)⟩

/-- C7: every leaderboard any handler produces carries positions that are
exactly `1..N` in order, and its entries mirror the (sliced) upstream
competitor list in input order — no sorting.  Stated for overview,
pga-leaderboard, lpga-leaderboard, and the full-report tour sections (the
last via `tourSectionOf`, which builds both the `pga` and `lpga` fields). -/
theorem C7_positions_contiguous_input_order :
    (∀ ev rest now, ∃ st rd lb,
      overviewHandler (Except.ok ⟨some (ev :: rest)⟩) now
        = Except.ok (.report ev.name st rd lb now "ESPN Golf API (live)")
      ∧ lb.map (·.position) = List.range' 1 lb.length
      ∧ lb.map (·.name) = (jsSliceTo (ev.competitors.getD []) 10).map (·.displayName))
  ∧ (∀ ev rest sb lim now, ∃ lb,
      pgaLeaderboardHandler (Except.ok ⟨some (ev :: rest)⟩) (Except.ok sb) lim now
        = Except.ok (.report (tournamentInfo ev) lb (sbCompetitors sb).length now)
      ∧ lb.map (·.position) = List.range' 1 lb.length
      ∧ lb.map (·.name) = (jsSliceTo (sbCompetitors sb) lim).map
          (fun c => jsOr (c.athlete.bind (·.displayName)) c.displayName))
  ∧ (∀ ev rest lim now, ∃ lb,
      lpgaLeaderboardHandler (Except.ok ⟨some (ev :: rest)⟩) lim now
        = Except.ok (.report (tournamentInfo ev) lb now)
      ∧ lb.map (·.position) = List.range' 1 lb.length
      ∧ lb.map (·.name) = (jsSliceTo (ev.competitors.getD []) lim).map (·.displayName))
  ∧ (∀ ev rest lpgaD sb now, ∃ lp up,
      fullReportHandler (Except.ok ⟨some (ev :: rest)⟩) (Except.ok lpgaD)
          (Except.ok sb) now
        = Except.ok { pga := some (tourSectionOf ev), lpga := lp,
                      upcomingPGA := up, generatedAt := now })
  ∧ (∀ ev, (tourSectionOf ev).topPlayers.map (·.position)
        = List.range' 1 (tourSectionOf ev).topPlayers.length
      ∧ (tourSectionOf ev).topPlayers.map (·.name)
        = (jsSliceTo (ev.competitors.getD []) 10).map (·.displayName)) := by
  refine ⟨?_, ?_, ?_, ?_, ?_⟩
  · intro ev rest now
    refine ⟨_, _, _, rfl, ?_, ?_⟩
    · rw [jsMapIdx_length]
      exact jsMapIdx_map_pos overviewEntry (fun x => x.position) (fun i a => rfl) _
    · exact jsMapIdx_map_proj overviewEntry (fun x => x.name)
        (fun x => x.displayName) (fun i a => rfl) _
  · intro ev rest sb lim now
    refine ⟨_, rfl, ?_, ?_⟩
    · rw [jsMapIdx_length]
      exact jsMapIdx_map_pos pgaLbEntry (fun x => x.position) (fun i a => rfl) _
    · exact jsMapIdx_map_proj pgaLbEntry (fun x => x.name)
        (fun c => jsOr (c.athlete.bind (·.displayName)) c.displayName) (fun i a => rfl) _
  · intro ev rest lim now
    refine ⟨_, rfl, ?_, ?_⟩
    · rw [jsMapIdx_length]
      exact jsMapIdx_map_pos lpgaEntry (fun x => x.position) (fun i a => rfl) _
    · exact jsMapIdx_map_proj lpgaEntry (fun x => x.name)
        (fun x => x.displayName) (fun i a => rfl) _
  · intro ev rest lpgaD sb now
    exact ⟨_, _, rfl⟩
  · intro ev
    constructor
    · show (jsMapIdx topPlayerEntry (jsSliceTo (ev.competitors.getD []) 10)).map (·.position)
        = List.range' 1 (jsMapIdx topPlayerEntry (jsSliceTo (ev.competitors.getD []) 10)).length
      rw [jsMapIdx_length]
      exact jsMapIdx_map_pos topPlayerEntry (fun x => x.position) (fun i a => rfl) _
    · exact jsMapIdx_map_proj topPlayerEntry (fun x => x.name)
        (fun x => x.displayName) (fun i a => rfl) _

/-- C8: for every upstream event, the overview leaderboard has at most 10
entries, numbered exactly `1..N` in input order. -/
theorem C8_overview_at_most_ten (ev : Event) (rest : List Event) (now : String) :
    ∃ st rd lb, overviewHandler (Except.ok ⟨some (ev :: rest)⟩) now
        = Except.ok (.report ev.name st rd lb now "ESPN Golf API (live)")
      ∧ lb.length ≤ 10
      ∧ lb.map (·.position) = List.range' 1 lb.length := by
  refine ⟨_, _, _, rfl, ?_, ?_⟩
  · rw [jsMapIdx_length]
    calc (jsSliceTo (ev.competitors.getD []) 10).length
        = min (Int.toNat 10) (ev.competitors.getD []).length :=
          jsSliceTo_length _ 10 (by omega)
      _ ≤ 10 := Nat.min_le_left _ _
  · rw [jsMapIdx_length]
    exact jsMapIdx_map_pos overviewEntry (fun x => x.position) (fun i a => rfl) _

/-- C9: with the tracker collaborator absent, the analytics handler returns
its error-field payload with summary fields absent, analytics-transactions
returns an empty list, analytics-csv returns an empty string, and none of
the three throws. -/
theorem C9_analytics_absent_tracker :
    (∀ gs w, analyticsHandler none gs w
      = Except.ok (.unavailable "Analytics not available" []))
  ∧ (∀ gt w lim, analyticsTransactionsHandler none gt w lim
      = Except.ok { transactions := [] })
  ∧ (∀ ec w, analyticsCsvHandler none ec w = Except.ok { csv := "" }) :=
  ⟨fun _ _ => rfl, fun _ _ _ => rfl, fun _ _ => rfl⟩

/-- Three transaction records for the C10 witness. -/
def sampleTxs : List Transaction := [⟨⟩, ⟨⟩, ⟨⟩]

/-- C10: a negative limit `n` reaches `slice(0, n)`, so against a list of
length `m > |n|` each of the four limit-taking handlers returns the first
`m - |n|` elements (the last `|n|` are dropped) — not an empty list, not
all elements, and not an error. -/
theorem C10_negative_limit_drops_tail (n : Int) (hn : n < 0) :
    (∀ ev rest sb now, n.natAbs < (sbCompetitors sb).length →
      ∃ lb, pgaLeaderboardHandler (Except.ok ⟨some (ev :: rest)⟩) (Except.ok sb) n now
          = Except.ok (.report (tournamentInfo ev) lb (sbCompetitors sb).length now)
        ∧ lb = jsMapIdx pgaLbEntry
            ((sbCompetitors sb).take ((sbCompetitors sb).length - n.natAbs)))
  ∧ (∀ sb now, n.natAbs < (sbCalendar sb).length →
      ∃ se, pgaScheduleHandler (Except.ok sb) n now
        = Except.ok
          { season := se
            events := ((sbCalendar sb).take ((sbCalendar sb).length - n.natAbs)).map
              scheduleEventOf
            fetchedAt := now })
  ∧ (∀ ev rest now, n.natAbs < (ev.competitors.getD []).length →
      ∃ lb, lpgaLeaderboardHandler (Except.ok ⟨some (ev :: rest)⟩) n now
          = Except.ok (.report (tournamentInfo ev) lb now)
        ∧ lb = jsMapIdx lpgaEntry
            ((ev.competitors.getD []).take ((ev.competitors.getD []).length - n.natAbs)))
  ∧ (∀ t gt w, n.natAbs < (gt t w : List Transaction).length →
      analyticsTransactionsHandler (some t) gt w n
        = Except.ok { transactions := (gt t w).take ((gt t w).length - n.natAbs) }) := by
  refine ⟨?_, ?_, ?_, ?_⟩
  · intro ev rest sb now _h
    refine ⟨_, rfl, ?_⟩
    rw [jsSliceTo_neg _ _ hn]
  · intro sb now _h
    refine ⟨((optIdx sb.leagues 0).bind (·.season)).bind (·.displayName), ?_⟩
    rw [← jsSliceTo_neg _ _ hn]
    rfl
  · intro ev rest now _h
    refine ⟨_, rfl, ?_⟩
    rw [jsSliceTo_neg _ _ hn]
  · intro t gt w _h
    rw [show analyticsTransactionsHandler (some t) gt w n
      = Except.ok { transactions := jsSliceTo (gt t w) n } from rfl,
      jsSliceTo_neg _ _ hn]

/-- Witness for C10: limit −1 against 3 transactions returns the first 2. -/
theorem C10_negative_limit_witness :
    ((-1 : Int) < 0)
  ∧ (Int.natAbs (-1) < sampleTxs.length)
  ∧ analyticsTransactionsHandler (some ⟨⟩) (fun _ _ => sampleTxs) none (-1)
      = Except.ok { transactions := sampleTxs.take (sampleTxs.length - Int.natAbs (-1)) } :=
  ⟨by decide, by decide,
   (C10_negative_limit_drops_tail (-1) (by decide)).2.2.2 ⟨⟩ (fun _ _ => sampleTxs)
     none (by decide)⟩

/-- C2 counterexample: the analytics-transactions handler succeeds with an
output object literal (`{ transactions }`) that carries no timestamp field,
so not every handler output contains a fetch/generation timestamp. -/
theorem C2_counterexample :
    analyticsTransactionsHandler none (fun _ _ => []) none 50
      = Except.ok { transactions := [] }
  ∧ TransactionsOutput.fetchedAtField { transactions := [] } = none :=
  ⟨rfl, rfl⟩

/-- C2 (amended): every successful output of overview, pga-schedule and
full-report carries the construction-time timestamp; for pga-leaderboard,
player-scorecard and lpga-leaderboard the success-shaped outputs carry it
while the error-shaped payloads carry none; the analytics outputs carry
none (the analytics summary adds no timestamp of its own). -/
theorem C2_amended_timestamps :
    (∀ r now out, overviewHandler r now = Except.ok out →
      out.fetchedAtField = some now)
  ∧ (∀ r lim now out, pgaScheduleHandler r lim now = Except.ok out →
      out.fetchedAtField = some now)
  ∧ (∀ a b c now out, fullReportHandler a b c now = Except.ok out →
      out.fetchedAtField = some now)
  ∧ (∀ r sbr lim now out, pgaLeaderboardHandler r sbr lim now = Except.ok out →
      out.fetchedAtField = if out.isErrorShaped then none else some now)
  ∧ (∀ r sbr pid now out, playerScorecardHandler r sbr pid now = Except.ok out →
      out.fetchedAtField = if out.isErrorShaped then none else some now)
  ∧ (∀ r lim now out, lpgaLeaderboardHandler r lim now = Except.ok out →
      out.fetchedAtField = if out.isErrorShaped then none else some now)
  ∧ (∀ tr gs w out, analyticsHandler tr gs w = Except.ok out →
      out.fetchedAtField = none)
  ∧ (∀ tr gt w lim out, analyticsTransactionsHandler tr gt w lim = Except.ok out →
      out.fetchedAtField = none)
  ∧ (∀ tr ec w out, analyticsCsvHandler tr ec w = Except.ok out →
      out.fetchedAtField = none) := by
  refine ⟨?_, ?_, ?_, ?_, ?_, ?_, ?_, ?_, ?_⟩
  · intro r now out h
    rcases r with e | ⟨_ | (_ | ⟨ev, rest⟩)⟩
    · exact Except.noConfusion h
    · cases Except.ok.inj h; rfl
    · cases Except.ok.inj h; rfl
    · cases Except.ok.inj h; rfl
  · intro r lim now out h
    rcases r with e | d
    · exact Except.noConfusion h
    · cases Except.ok.inj h; rfl
  · intro a b c now out h
    rcases a with ea | da
    · exact Except.noConfusion h
    rcases b with eb | db
    · exact Except.noConfusion h
    rcases c with ec | dc
    · exact Except.noConfusion h
    cases Except.ok.inj h; rfl
  · intro r sbr lim now out h
    rcases r with e | ⟨_ | (_ | ⟨ev, rest⟩)⟩
    · exact Except.noConfusion h
    · cases Except.ok.inj h; rfl
    · cases Except.ok.inj h; rfl
    · rcases sbr with e2 | sbd
      · exact Except.noConfusion h
      · cases Except.ok.inj h; rfl
  · intro r sbr pid now out h
    rcases r with e | ⟨_ | (_ | ⟨ev, rest⟩)⟩
    · exact Except.noConfusion h
    · cases Except.ok.inj h; rfl
    · cases Except.ok.inj h; rfl
    · rcases sbr with e2 | sbd
      · exact Except.noConfusion h
      · cases Except.ok.inj h
        unfold scorecardFor
        cases (sbCompetitors sbd).find? (fun c => c.id == some pid)
        · rfl
        · rfl
  · intro r lim now out h
    rcases r with e | ⟨_ | (_ | ⟨ev, rest⟩)⟩
    · exact Except.noConfusion h
    · cases Except.ok.inj h; rfl
    · cases Except.ok.inj h; rfl
    · cases Except.ok.inj h; rfl
  · intro tr gs w out h
    rcases tr with _ | t
    · cases Except.ok.inj h; rfl
    · cases Except.ok.inj h; rfl
  · intro tr gt w lim out h
    rcases tr with _ | t
    · cases Except.ok.inj h; rfl
    · cases Except.ok.inj h; rfl
  · intro tr ec w out h
    rcases tr with _ | t
    · cases Except.ok.inj h; rfl
    · cases Except.ok.inj h; rfl

/-- Witness for C2 (amended): concrete instantiations of the overview part
(which carries a timestamp even in the no-tournament branch) and the
analytics-transactions part (which never carries one). -/
theorem C2_amended_timestamps_witness :
    (OverviewOutput.noTournament "No active tournament" "T").fetchedAtField = some "T"
  ∧ TransactionsOutput.fetchedAtField { transactions := [] } = none :=
  ⟨C2_amended_timestamps.1 (Except.ok ⟨some []⟩) "T"
      (.noTournament "No active tournament" "T") rfl,
   C2_amended_timestamps.2.2.2.2.2.2.2.1 none (fun _ _ => []) none 50
      { transactions := [] } rfl⟩

end GolfIntel
